import Mathlib

/-!
Verification of the Mara River water-quality dashboard's core logic:
the calibration OffsetResolver, the FreshnessGate, the MalfunctionDetector,
and the calibration-offset management endpoint.

Conventions of the embedding:
* instants (JS `Date` values, ISO timestamp strings compared as timestamptz)
  are modelled as `Int` milliseconds since the epoch — all comparisons in the
  source are order comparisons, and `Date`/ISO order is isomorphic to ms order;
* JS numbers carrying measurement values and offsets are modelled as `ℚ`;
* a nullable field is an `Option`;
* each function is a direct translation of the corresponding TypeScript
  function, noted at its definition.
-/

/-- ASCII lower-casing of one character, as `String.prototype.toLowerCase`
acts on the ASCII sensor names and rule keys appearing in the source. -/
def lowerChar (c : Char) : Char :=
  if c.toNat ≥ 65 ∧ c.toNat ≤ 90 then Char.ofNat (c.toNat + 32) else c

/-- Character list of `name.toLowerCase()`. -/
def lowerName (s : String) : List Char := s.data.map lowerChar

/-- Contiguous-substring test, as `String.prototype.includes`. -/
def listContainsSub (needle : List Char) : List Char → Bool
  | [] => needle.isEmpty
  | c :: t => needle.isPrefixOf (c :: t) || listContainsSub needle t

/-- A row of `sensor_calibration_offsets`, as read by the dashboard
(`CalibrationOffset` in `src/pages/Index.tsx`). `valid_until = none`
models a SQL NULL ("ongoing"). -/
structure CalibrationOffset where
  id : String
  channel_id : String
  offset_value : ℚ
  valid_from : Int
  valid_until : Option Int
  reason : String
  deriving DecidableEq, Repr

/-- The predicate of the `calibrationOffsets.find(offset => ...)` callback in
`applyCalibrationOffset` (`src/pages/Index.tsx`): channel match, then
`readingTime >= validFrom`, then `(!validUntil || readingTime <= validUntil)`. -/
def offsetActive (channelId : String) (timestamp : Int) (o : CalibrationOffset) : Bool :=
  o.channel_id == channelId &&
  decide (o.valid_from ≤ timestamp) &&
  (match o.valid_until with
   | none => true
   | some u => decide (timestamp ≤ u))

/-- Return shape of `applyCalibrationOffset`: `{ corrected, offset }`. -/
structure CorrectionResult where
  corrected : ℚ
  offset : Option CalibrationOffset
  deriving DecidableEq, Repr

/-- Translation of `applyCalibrationOffset` (`src/pages/Index.tsx`, also
verbatim in the unnamed variant of the page): `Array.prototype.find` returns
the first matching element, and the result adds `offset_value` on a match and
returns the raw value otherwise. -/
def applyCalibrationOffset (offsets : List CalibrationOffset) (value : ℚ)
    (channelId : String) (timestamp : Int) : CorrectionResult :=
  match offsets.find? (offsetActive channelId timestamp) with
  | some activeOffset => ⟨value + activeOffset.offset_value, some activeOffset⟩
  | none => ⟨value, none⟩

/-- The matching condition exactly as the specification words it: the
offset's channel equals the reading's channel, `valid_from ≤ t`, and
`valid_until` is null or `t ≤ valid_until` (both endpoints inclusive,
null unbounded). -/
def offsetMatchesClaim (channelId : String) (timestamp : Int) (o : CalibrationOffset) : Bool :=
  o.channel_id == channelId &&
  decide (o.valid_from ≤ timestamp) &&
  (match o.valid_until with
   | none => true
   | some u => decide (timestamp ≤ u))

theorem offsetActive_eq_claim (channelId : String) (timestamp : Int) :
    offsetActive channelId timestamp = offsetMatchesClaim channelId timestamp := rfl

theorem find?_eq_filter_head? {α : Type} (l : List α) (p : α → Bool) :
    l.find? p = (l.filter p).head? := by
  induction l with
  | nil => rfl
  | cons x xs ih =>
    by_cases h : p x
    · simp [List.find?_cons, List.filter_cons, h]
    · simp only [List.find?_cons, List.filter_cons, h]
      simpa using ih

/-- C1. OffsetResolver resolution postcondition: an offset matches iff its
channel matches and `valid_from ≤ t` and (`valid_until` null or
`t ≤ valid_until`), both endpoints inclusive and null unbounded; if some
offset matches, the result is `rawValue + offset_value` of the matched offset
together with that offset, and otherwise the raw value unchanged with a null
applied offset. -/
theorem offsetResolver_resolve_postcondition (offsets : List CalibrationOffset)
    (value : ℚ) (channelId : String) (timestamp : Int) :
    applyCalibrationOffset offsets value channelId timestamp =
      match offsets.find? (offsetMatchesClaim channelId timestamp) with
      | some o => ⟨value + o.offset_value, some o⟩
      | none => ⟨value, none⟩ := rfl

/-- C2. OffsetResolver totality and tie-break: the resolver is a total
function (the embedding returns a `CorrectionResult` on every input, with no
error case), and on every offset list — including lists violating the
non-overlap invariant, where several offsets match — the applied offset is
exactly the head of the matching offsets in the given order, and the
corrected value is computed from that first match. -/
theorem offsetResolver_total_first_match (offsets : List CalibrationOffset)
    (value : ℚ) (channelId : String) (timestamp : Int) :
    (applyCalibrationOffset offsets value channelId timestamp).offset =
      (offsets.filter (offsetActive channelId timestamp)).head? ∧
    (applyCalibrationOffset offsets value channelId timestamp).corrected =
      (match (offsets.filter (offsetActive channelId timestamp)).head? with
       | some o => value + o.offset_value
       | none => value) := by
  unfold applyCalibrationOffset
  rw [find?_eq_filter_head?]
  constructor
  · cases (offsets.filter (offsetActive channelId timestamp)).head? <;> rfl
  · cases (offsets.filter (offsetActive channelId timestamp)).head? <;> rfl

/-- One minute in milliseconds. -/
def minuteMs : Int := 60 * 1000

/-- Translation of `shouldFetchFreshData`
(`supabase/functions/fetch-stevens-data/index.ts`). The database query
yields the most recent `status = 'success'` fetch-log row for the station,
passed here as `lastSuccessfulFetchAt` (`none` when no row exists). The
source computes `fifteenMinutesAgo = Date.now() - 15 * 60 * 1000` and
returns `lastFetch < fifteenMinutesAgo`; `true` means "fetch fresh data". -/
def shouldFetchFreshData (lastSuccessfulFetchAt : Option Int) (now : Int) : Bool :=
  match lastSuccessfulFetchAt with
  | none => true
  | some lastFetch => decide (lastFetch < now - 15 * minuteMs)

/-- The FreshnessGate's `isFresh`: cached data is served exactly when
`shouldFetchFreshData` is false. -/
def isFresh (lastSuccessfulFetchAt : Option Int) (now : Int) : Bool :=
  !(shouldFetchFreshData lastSuccessfulFetchAt now)

/-- `shouldFetchFreshData` with the source's inline `15` generalized to a
`thresholdMinutes` parameter, as the specification's `isFresh` signature
requires; the source itself hardcodes 15 (see `shouldFetch_eq_gen`). -/
def shouldFetchGen (lastSuccessfulFetchAt : Option Int) (now thresholdMinutes : Int) : Bool :=
  match lastSuccessfulFetchAt with
  | none => true
  | some lastFetch => decide (lastFetch < now - thresholdMinutes * minuteMs)

/-- Threshold-parametric `isFresh`. -/
def isFreshGen (lastSuccessfulFetchAt : Option Int) (now thresholdMinutes : Int) : Bool :=
  !(shouldFetchGen lastSuccessfulFetchAt now thresholdMinutes)

theorem shouldFetch_eq_gen (l : Option Int) (now : Int) :
    shouldFetchFreshData l now = shouldFetchGen l now 15 := rfl

/-- C3 counterexample. At the exact threshold boundary the code still treats
the data as fresh: with the last success at instant 0 and `now` exactly 15
minutes later, `isFresh` is `true` although `now - lastFetch < 15 minutes`
is false — the code's freshness condition is `now - lastFetch ≤ threshold`,
not the claimed strict `<`. -/
theorem freshness_boundary_counterexample :
    isFresh (some 0) (15 * minuteMs) = true ∧
    ¬ ((15 * minuteMs : Int) - 0 < 15 * minuteMs) := by
  constructor
  · rfl
  · decide

/-- C3 amended. FreshnessGate policy: `isFresh` is false whenever no prior
successful fetch exists; otherwise `isFresh(last, now, threshold)` is true
iff `now - last ≤ threshold` minutes (boundary inclusive on the fresh side);
and the code's own gate is the threshold-parametric one instantiated at the
inline constant 15 minutes. -/
theorem freshnessGate_policy_amended :
    (∀ now thresholdMinutes : Int, isFreshGen none now thresholdMinutes = false) ∧
    (∀ lastFetch now thresholdMinutes : Int,
      isFreshGen (some lastFetch) now thresholdMinutes =
        decide (now - lastFetch ≤ thresholdMinutes * minuteMs)) ∧
    (∀ l now, isFresh l now = isFreshGen l now 15) := by
  refine ⟨fun _ _ => rfl, fun lastFetch now th => ?_, fun _ _ => rfl⟩
  simp only [isFreshGen, shouldFetchGen]
  rw [← decide_not]
  exact decide_eq_decide.mpr (by omega)

/-- C4. FreshnessGate monotonicity: with the last successful fetch and the
threshold fixed, `isFresh` is antitone in `now` — once it is false at
`now1`, it stays false at every `now2 ≥ now1`. -/
theorem freshness_antitone (l : Option Int) (thresholdMinutes now1 now2 : Int)
    (hle : now1 ≤ now2) (hfalse : isFreshGen l now1 thresholdMinutes = false) :
    isFreshGen l now2 thresholdMinutes = false := by
  cases l with
  | none => rfl
  | some lastFetch =>
    simp only [isFreshGen, shouldFetchGen, Bool.not_eq_false', decide_eq_true_eq] at hfalse ⊢
    omega

theorem freshness_antitone_witness :
    ((16 * minuteMs : Int) ≤ 17 * minuteMs) ∧
    isFreshGen (some 0) (16 * minuteMs) 15 = false ∧
    isFreshGen (some 0) (17 * minuteMs) 15 = false :=
  ⟨by decide, by decide,
    freshness_antitone (some 0) 15 (16 * minuteMs) (17 * minuteMs) (by decide) (by decide)⟩

/-- Status column of an `api_fetch_log` row (the migration constrains it to
`'in_progress' | 'success' | 'failed'`). -/
inductive FetchStatus where
  | inProgress
  | success
  | failed
  deriving DecidableEq, Repr

/-- An `api_fetch_log` row as the fetch function writes and reads it. -/
structure FetchLogEntry where
  station_id : String
  fetch_started_at : Int
  fetch_completed_at : Int
  status : FetchStatus
  error_message : Option String
  readings_count : Option Nat
  deriving DecidableEq, Repr

/-- Outcome of one upstream fetch-and-store attempt. -/
inductive FetchOutcome where
  | success (readingsCount : Nat)
  | failure (errorMessage : String)
  deriving DecidableEq, Repr

/-- Translation of the fetch function's logging behavior
(`supabase/functions/fetch-stevens-data/index.ts`): on success,
`storeDataInBackground` inserts one `api_fetch_log` row with
`status: 'success'` and the readings count; on failure, both the
`storeDataInBackground` catch (`console.error` only) and the top-level
serve-handler catch (an HTTP 500 response only) insert nothing. -/
def recordFetchAttempt (log : List FetchLogEntry) (station : String) (now : Int)
    (outcome : FetchOutcome) : List FetchLogEntry :=
  match outcome with
  | .success n => log ++ [⟨station, now, now, .success, none, some n⟩]
  | .failure _ => log

/-- The freshness query of `shouldFetchFreshData`: among the station's rows
with `status = 'success'`, the greatest `fetch_completed_at` (the source
orders descending and takes one row). -/
def lastSuccessfulFetchAt (log : List FetchLogEntry) (station : String) : Option Int :=
  ((log.filter (fun e => e.station_id == station && e.status == .success)).map
    (fun e => e.fetch_completed_at)).max?

/-- C5 counterexample. A failed fetch attempt records no `api_fetch_log` row
at all: starting from an empty log, a failing attempt leaves the log empty —
in particular no entry with `status = 'failed'` and the error message is
written, contrary to the claim. -/
theorem failed_fetch_no_log_counterexample :
    recordFetchAttempt [] "station-1" 1000
      (FetchOutcome.failure "Authentication failed: 401") = [] ∧
    ((recordFetchAttempt [] "station-1" 1000
      (FetchOutcome.failure "Authentication failed: 401")).filter
        (fun e => e.status == .failed)).isEmpty = true := by
  exact ⟨rfl, rfl⟩

/-- C5 amended. A failed upstream fetch attempt records no FetchLog entry at
all (the error is only logged to the console and surfaced in the HTTP
response); consequently the last-successful-fetch instant every freshness
check reads is unchanged by the failed attempt, and a failed attempt is never
counted as a successful fetch for freshness purposes. -/
theorem failed_fetch_amended (log : List FetchLogEntry) (station : String)
    (now : Int) (msg : String) (station2 : String) :
    recordFetchAttempt log station now (.failure msg) = log ∧
    lastSuccessfulFetchAt (recordFetchAttempt log station now (.failure msg)) station2 =
      lastSuccessfulFetchAt log station2 := ⟨rfl, rfl⟩

/-- One reading of a sensor's history (`{timestamp, value}`); only `value`
is consulted by the detector. -/
structure SensorReading where
  timestamp : Int
  value : ℚ
  deriving DecidableEq, Repr

/-- One entry of `SENSOR_VALIDATION_RULES`
(`{ minValue?, maxValue?, allowNegative? }`); `allowNegative` is carried in
the source table but never consulted by `detectMalfunction`. -/
structure ValidationRule where
  minValue : Option ℚ
  maxValue : Option ℚ
  allowNegative : Option Bool
  deriving DecidableEq, Repr

/-- The static `SENSOR_VALIDATION_RULES` table, in the object-literal
insertion order `Object.entries` iterates (unnamed variant of
`src/pages/Index.tsx`). Keys are lower-case and matched by substring
against the lower-cased sensor name. -/
def SENSOR_VALIDATION_RULES : List (List Char × ValidationRule) :=
  [ ("ph".data, ⟨some 0, some 14, some false⟩),
    ("do".data, ⟨some 0, some 350, some false⟩),
    ("do %".data, ⟨some 0, some 120, some false⟩),
    ("temp".data, ⟨some (-10), some 50, none⟩),
    ("conductivity".data, ⟨some 0, none, some false⟩),
    ("sc".data, ⟨some 0, none, some false⟩),
    ("orp".data, ⟨some (-500), some 500, none⟩),
    ("depth".data, ⟨some 0, none, some false⟩),
    ("salinity".data, ⟨some 0, some 50, some false⟩),
    ("cable power".data, ⟨some 0, some 15, some false⟩) ]

/-- Reason codes of `detectMalfunction`, one per reason string the source
returns: `belowMin v lo` for "Reading v below valid minimum lo",
`aboveMax v hi` for "Reading v above valid maximum hi", `negativeValue` for
"Negative value detected", `stuckValue` for "Sensor reporting constant value
(may be stuck)", `erraticReadings` for "Sensor showing erratic readings". -/
inductive MalfunctionReason where
  | belowMin (v : ℚ) (lo : ℚ)
  | aboveMax (v : ℚ) (hi : ℚ)
  | negativeValue
  | stuckValue
  | erraticReadings
  deriving DecidableEq, Repr

/-- Return shape of `detectMalfunction`: `{ isMalfunctioning, reason? }`. -/
structure DetectResult where
  isMalfunctioning : Bool
  reason : Option MalfunctionReason
  deriving DecidableEq, Repr

/-- `Array.prototype.slice(-n)`: the last `n` elements, or all if fewer. -/
def lastN (n : Nat) (l : List ℚ) : List ℚ := l.drop (l.length - n)

/-- `new Set(values).size === 1`: the list is nonempty and all its elements
are equal. -/
def allSame : List ℚ → Bool
  | [] => false
  | x :: xs => xs.all (fun y => y == x)

/-- `values.reduce((a, b) => a + b, 0)`. -/
def listSum (l : List ℚ) : ℚ := l.foldl (· + ·) 0

/-- The window mean computed by `detectMalfunction`. -/
def mean (l : List ℚ) : ℚ := listSum l / l.length

/-- The population variance computed by `detectMalfunction`
(`reduce((a, b) => a + Math.pow(b - mean, 2), 0) / length`). -/
def variance (l : List ℚ) : ℚ := listSum (l.map (fun v => (v - mean l) ^ 2)) / l.length

/-- The range-violation step of `detectMalfunction`, given the looked-up rule
(`undefined` modelled as `none`): `currentValue` below a present `minValue`
or above a present `maxValue` yields the corresponding reason; with no rule,
a negative `currentValue` yields the generic "Negative value detected". -/
def rangeViolation (rule : Option ValidationRule) (currentValue : ℚ) : Option MalfunctionReason :=
  match rule with
  | some r =>
    match r.minValue, r.maxValue with
    | some lo, some hi =>
      if currentValue < lo then some (.belowMin currentValue lo)
      else if currentValue > hi then some (.aboveMax currentValue hi)
      else none
    | some lo, none =>
      if currentValue < lo then some (.belowMin currentValue lo) else none
    | none, some hi =>
      if currentValue > hi then some (.aboveMax currentValue hi) else none
    | none, none => none
  | none => if currentValue < 0 then some .negativeValue else none

/-- Translation of `detectMalfunction` (unnamed variant of
`src/pages/Index.tsx`). The rule lookup is the source's
`for … of Object.entries` loop with `break`, i.e. the first table entry whose
key occurs in the lower-cased name. The erratic test in the source is
`stdDev > mean * 0.8 && mean > 1` with `stdDev = Math.sqrt(variance)`; since
the conjunct `mean > 1` makes `mean * 0.8` positive and `stdDev ≥ 0`, the
test is equivalent to `variance > (mean * 0.8)^2`, which is what `ℚ` can
express exactly (no square root leaves the rationals). -/
def detectMalfunction (name : String) (readings : List SensorReading)
    (currentValue : ℚ) : DetectResult :=
  if readings.length < 10 then ⟨false, none⟩
  else
    let sensorNameLower := lowerName name
    let rule := (SENSOR_VALIDATION_RULES.find?
      (fun kv => listContainsSub kv.1 sensorNameLower)).map Prod.snd
    match rangeViolation rule currentValue with
    | some r => ⟨true, some r⟩
    | none =>
      let recentValues := lastN 20 (readings.map (fun r => r.value))
      if allSame recentValues then ⟨true, some .stuckValue⟩
      else if decide (variance recentValues > (mean recentValues * (8 / 10)) ^ 2) &&
              decide (mean recentValues > 1) then ⟨true, some .erraticReadings⟩
      else ⟨false, none⟩

/-- C6. MalfunctionDetector insufficient-history guard: with fewer than 10
readings the detector reports healthy for every sensor name and every
current value. -/
theorem detect_insufficient_history (name : String) (readings : List SensorReading)
    (currentValue : ℚ) (h : readings.length < 10) :
    detectMalfunction name readings currentValue = ⟨false, none⟩ := by
  simp [detectMalfunction, h]

theorem detect_insufficient_history_witness :
    ([] : List SensorReading).length < 10 ∧
    detectMalfunction "pH" [] 999999 = ⟨false, none⟩ :=
  ⟨by decide, detect_insufficient_history "pH" [] 999999 (by decide)⟩

/-- Rule lookup as the claim words it: the first entry of the table, in table
order, whose key occurs (case-insensitively) in the sensor name. -/
def firstMatchingRule (nameLower : List Char) :
    List (List Char × ValidationRule) → Option ValidationRule
  | [] => none
  | (key, r) :: rest =>
    if listContainsSub key nameLower then some r else firstMatchingRule nameLower rest

/-- Stuck check as the claim words it: the last 20 readings (or all if
fewer) all identical. -/
def stuckCheckSpec (readings : List SensorReading) : Option MalfunctionReason :=
  if allSame (lastN 20 (readings.map (fun r => r.value))) then some .stuckValue else none

/-- Erratic check as the claim words it: over the same trailing window,
`stdDev > 0.8 * mean` and `mean > 1` — expressed on squares, exactly
equivalent because both compared quantities are nonnegative when
`mean > 1`. -/
def erraticCheckSpec (readings : List SensorReading) : Option MalfunctionReason :=
  let w := lastN 20 (readings.map (fun r => r.value))
  if decide (variance w > ((8 / 10 : ℚ) * mean w) ^ 2 ∧ mean w > 1) then
    some .erraticReadings
  else none

/-- First reason produced by a priority-ordered list of checks. -/
def firstHit : List (Option MalfunctionReason) → Option MalfunctionReason
  | [] => none
  | some r :: _ => some r
  | none :: rest => firstHit rest

/-- The detector as the claim describes it, parametrized by the rule table:
with at least 10 readings, apply range violation, then stuck, then erratic
in priority order with the first match winning; otherwise healthy. -/
def detectWith (table : List (List Char × ValidationRule)) (name : String)
    (readings : List SensorReading) (currentValue : ℚ) : DetectResult :=
  if readings.length < 10 then ⟨false, none⟩
  else
    match firstHit
      [ rangeViolation (firstMatchingRule (lowerName name) table) currentValue,
        stuckCheckSpec readings,
        erraticCheckSpec readings ] with
    | some r => ⟨true, some r⟩
    | none => ⟨false, none⟩

/-- The seven-entry rule table exactly as claim C7 lists it: pH [0,14],
DO% [0,120], temperature [-10,50], conductivity ≥ 0, ORP [-500,500],
salinity [0,50], cable power [0,15], with the key spellings the source uses
for those metrics. -/
def CLAIMED_RULES : List (List Char × ValidationRule) :=
  [ ("ph".data, ⟨some 0, some 14, some false⟩),
    ("do %".data, ⟨some 0, some 120, some false⟩),
    ("temp".data, ⟨some (-10), some 50, none⟩),
    ("conductivity".data, ⟨some 0, none, some false⟩),
    ("orp".data, ⟨some (-500), some 500, none⟩),
    ("salinity".data, ⟨some 0, some 50, some false⟩),
    ("cable power".data, ⟨some 0, some 15, some false⟩) ]

/-- Ten readings alternating between 100 and 101: enough history, not stuck,
not erratic (mean 100.5, variance 1/4). -/
def cxReadings : List SensorReading :=
  [⟨1, 100⟩, ⟨2, 101⟩, ⟨3, 100⟩, ⟨4, 101⟩, ⟨5, 100⟩,
   ⟨6, 101⟩, ⟨7, 100⟩, ⟨8, 101⟩, ⟨9, 100⟩, ⟨10, 101⟩]

/-- C7 counterexample. For the sensor "DO % Saturation" with current value
130, the detector the claim describes (table containing DO% [0,120]) flags a
range violation, but the code returns healthy: the source table also holds a
'do' entry with range [0,350] listed before 'do %', and any name containing
"do %" also contains "do", so the first-match lookup always selects the 'do'
rule and the claimed DO% [0,120] bound is unreachable. -/
theorem detect_do_percent_counterexample :
    detectWith CLAIMED_RULES "DO % Saturation" cxReadings 130 =
      ⟨true, some (.aboveMax 130 120)⟩ ∧
    detectMalfunction "DO % Saturation" cxReadings 130 = ⟨false, none⟩ := by
  refine ⟨by decide, ?_⟩
  have hw : lastN 20 (cxReadings.map (fun r => r.value)) =
      [100, 101, 100, 101, 100, 101, 100, 101, 100, 101] := rfl
  have herr : (decide (variance (lastN 20 (cxReadings.map (fun r => r.value))) >
      (mean (lastN 20 (cxReadings.map (fun r => r.value))) * (8 / 10)) ^ 2) &&
      decide (mean (lastN 20 (cxReadings.map (fun r => r.value))) > 1)) = false := by
    rw [hw]
    norm_num [variance, mean, listSum]
  simp only [detectMalfunction, herr]
  decide

theorem firstMatchingRule_eq_find? (nameLower : List Char)
    (table : List (List Char × ValidationRule)) :
    (table.find? (fun kv => listContainsSub kv.1 nameLower)).map Prod.snd =
      firstMatchingRule nameLower table := by
  induction table with
  | nil => rfl
  | cons kv rest ih =>
    by_cases h : listContainsSub kv.1 nameLower
    · simp [List.find?_cons, firstMatchingRule, h]
    · simp [List.find?_cons, firstMatchingRule, h, ih]

/-- C7 amended. MalfunctionDetector check order and thresholds: for every
sensor, the code's detector equals the priority cascade the claim describes —
range violation first (rule looked up as the first key, in table order,
occurring case-insensitively in the sensor name; no rule and a negative value
gives "negative value detected"), then the stuck check on the last 20
readings, then the erratic check (`stdDev > 0.8 * mean` and `mean > 1`), the
first firing check winning and healthy otherwise — provided the table is the
source's full ten-entry table, which also holds DO [0,350], SC ≥ 0 and
depth ≥ 0, so that a name containing "do %" matches the earlier 'do' entry
rather than the claimed DO% [0,120] entry. -/
theorem detect_checks_amended (name : String) (readings : List SensorReading)
    (currentValue : ℚ) :
    detectMalfunction name readings currentValue =
      detectWith SENSOR_VALIDATION_RULES name readings currentValue := by
  unfold detectMalfunction detectWith
  by_cases hlen : readings.length < 10
  · simp [hlen]
  · simp only [hlen, if_false]
    rw [firstMatchingRule_eq_find?]
    cases hr : rangeViolation (firstMatchingRule (lowerName name) SENSOR_VALIDATION_RULES)
        currentValue with
    | some r => simp [firstHit]
    | none =>
      simp only [firstHit]
      unfold stuckCheckSpec erraticCheckSpec
      by_cases hstuck : allSame (lastN 20 (readings.map (fun r => r.value)))
      · simp [hstuck, firstHit]
      · simp only [hstuck, if_false, Bool.false_eq_true, firstHit]
        by_cases herr : variance (lastN 20 (readings.map (fun r => r.value))) >
            ((8 / 10 : ℚ) * mean (lastN 20 (readings.map (fun r => r.value)))) ^ 2 ∧
            mean (lastN 20 (readings.map (fun r => r.value))) > 1
        · have h1 : variance (lastN 20 (readings.map (fun r => r.value))) >
              (mean (lastN 20 (readings.map (fun r => r.value))) * (8 / 10)) ^ 2 := by
            rw [mul_comm]; exact herr.1
          simp [firstHit, herr, h1, herr.2]
        · rcases not_and_or.mp herr with h1 | h2
          · have : ¬ variance (lastN 20 (readings.map (fun r => r.value))) >
                (mean (lastN 20 (readings.map (fun r => r.value))) * (8 / 10)) ^ 2 := by
              rw [mul_comm]; exact h1
            simp [firstHit, herr, this]
          · simp [firstHit, herr, h2]

/-- Payload `data` of a `manage-calibration-offsets` request
(`{ id?, channel_id, offset_value, valid_from, valid_until?, reason }`). -/
structure OffsetData where
  id : Option String
  channel_id : String
  offset_value : ℚ
  valid_from : Int
  valid_until : Option Int
  reason : String
  deriving DecidableEq, Repr

/-- The instant `'9999-12-31'`, which the create action's overlap query
substitutes for a null `valid_until` of the new offset
(`data.valid_until || '9999-12-31'`). -/
def sentinelMax : Int := 253402214400000

/-- The create action's overlap query, row for row: same channel
(`.eq('channel_id', …)`), existing `valid_until` null or
`≥ data.valid_from` (`.or('valid_until.is.null,valid_until.gte.…')`), and
existing `valid_from ≤ (data.valid_until || '9999-12-31')` (`.lte`). -/
def overlapQueryHit (d : OffsetData) (o : CalibrationOffset) : Bool :=
  o.channel_id == d.channel_id &&
  (match o.valid_until with
   | none => true
   | some u => decide (d.valid_from ≤ u)) &&
  decide (o.valid_from ≤ d.valid_until.getD sentinelMax)

/-- Two validity intervals `[f1, u1]` and `[f2, u2]` intersect, a null upper
endpoint unbounded and both endpoints inclusive — the overlap notion of the
specification's per-channel invariant. -/
def intervalsOverlap (f1 : Int) (u1 : Option Int) (f2 : Int) (u2 : Option Int) : Bool :=
  (match u1 with
   | none => true
   | some u => decide (f2 ≤ u)) &&
  (match u2 with
   | none => true
   | some u => decide (f1 ≤ u))

/-- Overlap of two offsets' validity intervals. -/
def offsetsOverlap (a b : CalibrationOffset) : Bool :=
  intervalsOverlap a.valid_from a.valid_until b.valid_from b.valid_until

/-- The per-channel non-overlap invariant of the offset store: no two
offsets of the same channel have intersecting validity intervals. -/
def pairwiseNonOverlap : List CalibrationOffset → Bool
  | [] => true
  | o :: rest =>
    rest.all (fun p => !(o.channel_id == p.channel_id && offsetsOverlap o p)) &&
    pairwiseNonOverlap rest

/-- Body of a `manage-calibration-offsets` HTTP response: an
`{ error: msg }` object, a returned offset row, or the delete
acknowledgement `{ success: true, id }`. -/
inductive ResponseBody where
  | errorMsg (msg : String)
  | okOffset (o : CalibrationOffset)
  | okDeleted (id : String)
  deriving DecidableEq, Repr

/-- A `manage-calibration-offsets` HTTP response. -/
structure HttpResponse where
  status : Nat
  body : ResponseBody
  deriving DecidableEq, Repr

/-- The `action` field; `invalidAction` models a runtime action string
outside the three known ones (the switch's default branch throws
"Invalid action"). -/
inductive OffsetAction where
  | create
  | update
  | delete
  | invalidAction
  deriving DecidableEq, Repr

/-- A `manage-calibration-offsets` request. -/
structure OffsetRequest where
  action : OffsetAction
  password : String
  data : Option OffsetData
  deriving DecidableEq, Repr

/-- The row the create action inserts, with the database-assigned id. -/
def mkOffset (newId : String) (d : OffsetData) : CalibrationOffset :=
  ⟨newId, d.channel_id, d.offset_value, d.valid_from, d.valid_until, d.reason⟩

/-- The create action (`manage-calibration-offsets`): run the overlap query
against the existing rows; any hit is rejected with HTTP 400 "Overlapping
offset period exists for this sensor" and no insert, otherwise the new row
is inserted and returned. -/
def createOffsetAction (store : List CalibrationOffset) (d : OffsetData)
    (newId : String) : HttpResponse × List CalibrationOffset :=
  if (store.filter (overlapQueryHit d)).isEmpty then
    (⟨200, .okOffset (mkOffset newId d)⟩, store ++ [mkOffset newId d])
  else
    (⟨400, .errorMsg "Overlapping offset period exists for this sensor"⟩, store)

/-- The update action (`manage-calibration-offsets`): rewrite
`offset_value`, `valid_from`, `valid_until` and `reason` of the row with the
given id — with no overlap query. `.select().single()` errors (caught as an
HTTP 500) when no row has the id. -/
def updateOffsetAction (store : List CalibrationOffset) (d : OffsetData)
    (targetId : String) : HttpResponse × List CalibrationOffset :=
  match store.find? (fun o => o.id == targetId) with
  | none =>
    (⟨500, .errorMsg "JSON object requested, multiple (or no) rows returned"⟩, store)
  | some o0 =>
    let o1 : CalibrationOffset :=
      { o0 with
        offset_value := d.offset_value, valid_from := d.valid_from,
        valid_until := d.valid_until, reason := d.reason }
    (⟨200, .okOffset o1⟩, store.map (fun o => if o.id == targetId then o1 else o))

/-- The delete action (`manage-calibration-offsets`): remove the row with
the given id; the source acknowledges success whether or not a row matched. -/
def deleteOffsetAction (store : List CalibrationOffset) (targetId : String) :
    HttpResponse × List CalibrationOffset :=
  (⟨200, .okDeleted targetId⟩, store.filter (fun o => !(o.id == targetId)))

/-- The password gate of `manage-calibration-offsets`:
`!CALIBRATION_PASSWORD || password !== CALIBRATION_PASSWORD` — the secret
unset, set to the empty string (falsy), or different from the supplied
password. -/
def authRejected (secret : Option String) (password : String) : Bool :=
  match secret with
  | none => true
  | some s => s == "" || password != s

/-- The authorized dispatch over the action switch, missing-data checks
included (thrown errors surface as HTTP 500 with the thrown message). -/
def dispatchAction (req : OffsetRequest) (store : List CalibrationOffset)
    (newId : String) : HttpResponse × List CalibrationOffset :=
  match req.action with
  | .create =>
    match req.data with
    | none => (⟨500, .errorMsg "Data required for create action"⟩, store)
    | some d => createOffsetAction store d newId
  | .update =>
    match req.data with
    | none => (⟨500, .errorMsg "Data with ID required for update action"⟩, store)
    | some d =>
      match d.id with
      | none => (⟨500, .errorMsg "Data with ID required for update action"⟩, store)
      | some targetId => updateOffsetAction store d targetId
  | .delete =>
    match req.data with
    | none => (⟨500, .errorMsg "ID required for delete action"⟩, store)
    | some d =>
      match d.id with
      | none => (⟨500, .errorMsg "ID required for delete action"⟩, store)
      | some targetId => deleteOffsetAction store targetId
  | .invalidAction => (⟨500, .errorMsg "Invalid action"⟩, store)

/-- Translation of the `manage-calibration-offsets` serve handler: the
password gate first (HTTP 401, `{ error: 'Invalid password' }`, nothing
executed), then the action switch. -/
def manageCalibrationOffsets (secret : Option String) (req : OffsetRequest)
    (store : List CalibrationOffset) (newId : String) :
    HttpResponse × List CalibrationOffset :=
  if authRejected secret req.password then
    (⟨401, .errorMsg "Invalid password"⟩, store)
  else
    dispatchAction req store newId

theorem overlapQueryHit_eq_overlap (d : OffsetData) (o : CalibrationOffset)
    (hb : o.valid_from ≤ sentinelMax) :
    overlapQueryHit d o =
      (o.channel_id == d.channel_id &&
        intervalsOverlap o.valid_from o.valid_until d.valid_from d.valid_until) := by
  unfold overlapQueryHit intervalsOverlap
  cases hvu : d.valid_until with
  | none => simp [Option.getD, hb, Bool.and_assoc]
  | some u => simp [Option.getD, Bool.and_assoc]

theorem pairwiseNonOverlap_append (l : List CalibrationOffset) (x : CalibrationOffset) :
    pairwiseNonOverlap (l ++ [x]) =
      (pairwiseNonOverlap l &&
        l.all (fun o => !(o.channel_id == x.channel_id && offsetsOverlap o x))) := by
  induction l with
  | nil => simp [pairwiseNonOverlap]
  | cons y ys ih =>
    simp only [List.cons_append, pairwiseNonOverlap, List.append_eq, List.all_append,
      List.all_cons, List.all_nil, ih, Bool.and_true]
    cases ys.all (fun p => !(y.channel_id == p.channel_id && offsetsOverlap y p)) <;>
      cases (!(y.channel_id == x.channel_id && offsetsOverlap y x)) <;>
      cases pairwiseNonOverlap ys <;>
      cases ys.all (fun o => !(o.channel_id == x.channel_id && offsetsOverlap o x)) <;>
      rfl

/-- C8. Calibration-offset creation guard: on a store satisfying the
per-channel non-overlap invariant (with well-formed timestamps, i.e. no
`valid_from` beyond the query's '9999-12-31' sentinel), the create action
rejects with the specific HTTP 400 conflict error and inserts nothing
exactly when some existing offset of the same channel overlaps the new
offset's validity interval (null `valid_until` unbounded), and inserts the
new offset otherwise — so creation preserves the invariant. -/
theorem create_overlap_guard (store : List CalibrationOffset) (d : OffsetData)
    (newId : String)
    (hinv : pairwiseNonOverlap store = true)
    (hb : store.all (fun o => decide (o.valid_from ≤ sentinelMax)) = true) :
    createOffsetAction store d newId =
      (if store.any (fun o => o.channel_id == d.channel_id &&
          offsetsOverlap o (mkOffset newId d)) then
        (⟨400, .errorMsg "Overlapping offset period exists for this sensor"⟩, store)
      else
        (⟨200, .okOffset (mkOffset newId d)⟩, store ++ [mkOffset newId d])) ∧
    pairwiseNonOverlap (createOffsetAction store d newId).2 = true := by
  have hb' : ∀ o ∈ store, o.valid_from ≤ sentinelMax := by
    intro o ho
    have := (List.all_eq_true.mp hb) o ho
    exact of_decide_eq_true this
  have hpred : ∀ o ∈ store, overlapQueryHit d o =
      (o.channel_id == d.channel_id && offsetsOverlap o (mkOffset newId d)) := by
    intro o ho
    have h1 := overlapQueryHit_eq_overlap d o (hb' o ho)
    simpa [offsetsOverlap, mkOffset] using h1
  have hfilter : store.filter (overlapQueryHit d) =
      store.filter (fun o => o.channel_id == d.channel_id &&
        offsetsOverlap o (mkOffset newId d)) := List.filter_congr hpred
  cases hAny : store.any (fun o => o.channel_id == d.channel_id &&
      offsetsOverlap o (mkOffset newId d)) with
  | false =>
    have hall : ∀ o ∈ store, (o.channel_id == d.channel_id &&
        offsetsOverlap o (mkOffset newId d)) = false := by
      intro o ho
      cases hx : (o.channel_id == d.channel_id && offsetsOverlap o (mkOffset newId d)) with
      | false => rfl
      | true =>
        have hco : store.any (fun p => p.channel_id == d.channel_id &&
            offsetsOverlap p (mkOffset newId d)) = true :=
          List.any_eq_true.mpr ⟨o, ho, hx⟩
        rw [hAny] at hco
        cases hco
    have hnil : store.filter (overlapQueryHit d) = [] := by
      rw [hfilter]
      exact List.filter_eq_nil_iff.mpr (fun a ha => by simp [hall a ha])
    have hempty : (store.filter (overlapQueryHit d)).isEmpty = true := by
      rw [hnil]; rfl
    unfold createOffsetAction
    rw [hempty]
    refine ⟨by simp, ?_⟩
    simp only [if_true]
    rw [pairwiseNonOverlap_append, hinv, Bool.true_and, List.all_eq_true]
    intro o ho
    have := hall o ho
    simp only [mkOffset] at this ⊢
    simp [this]
  | true =>
    rcases List.any_eq_true.mp hAny with ⟨o, ho, hpo⟩
    have hmem : o ∈ store.filter (overlapQueryHit d) := by
      rw [hfilter]; exact List.mem_filter.mpr ⟨ho, hpo⟩
    have hne : (store.filter (overlapQueryHit d)).isEmpty = false := by
      cases hx : (store.filter (overlapQueryHit d)).isEmpty
      · rfl
      · rw [List.isEmpty_iff] at hx
        rw [hx] at hmem
        cases hmem
    unfold createOffsetAction
    rw [hne]
    exact ⟨by simp, hinv⟩

/-- Concrete store and request for the creation-guard witness: one existing
offset on channel ch1 valid over [0, 10], and a new offset over [5, 20]. -/
def c8Store : List CalibrationOffset := [⟨"id1", "ch1", 1, 0, some 10, "calib"⟩]

def c8Data : OffsetData := ⟨none, "ch1", 2, 5, some 20, "second calib"⟩

theorem create_overlap_guard_witness :
    pairwiseNonOverlap c8Store = true ∧
    c8Store.all (fun o => decide (o.valid_from ≤ sentinelMax)) = true ∧
    (createOffsetAction c8Store c8Data "id2" =
      (if c8Store.any (fun o => o.channel_id == c8Data.channel_id &&
          offsetsOverlap o (mkOffset "id2" c8Data)) then
        (⟨400, .errorMsg "Overlapping offset period exists for this sensor"⟩, c8Store)
      else
        (⟨200, .okOffset (mkOffset "id2" c8Data)⟩, c8Store ++ [mkOffset "id2" c8Data])) ∧
    pairwiseNonOverlap (createOffsetAction c8Store c8Data "id2").2 = true) :=
  ⟨by decide, by decide, create_overlap_guard c8Store c8Data "id2" (by decide) (by decide)⟩

theorem dispatch_status_ne_401 (req : OffsetRequest) (store : List CalibrationOffset)
    (newId : String) : (dispatchAction req store newId).1.status ≠ 401 := by
  obtain ⟨action, password, data⟩ := req
  cases action with
  | create =>
    cases data with
    | none => simp [dispatchAction]
    | some d =>
      simp only [dispatchAction]
      unfold createOffsetAction
      split <;> simp
  | update =>
    cases data with
    | none => simp [dispatchAction]
    | some d =>
      obtain ⟨did, dch, dov, dvf, dvu, dr⟩ := d
      cases did with
      | none => simp [dispatchAction]
      | some targetId =>
        simp only [dispatchAction]
        unfold updateOffsetAction
        split <;> simp
  | delete =>
    cases data with
    | none => simp [dispatchAction]
    | some d =>
      obtain ⟨did, dch, dov, dvf, dvu, dr⟩ := d
      cases did with
      | none => simp [dispatchAction]
      | some targetId => simp [dispatchAction, deleteOffsetAction]
  | invalidAction => simp [dispatchAction]

/-- C9. Calibration-endpoint authentication: a request is answered with the
HTTP 401 `{ error: 'Invalid password' }` response and the store left
untouched exactly when the password gate rejects (secret unset, falsy, or
different from the supplied password) — and status 401 occurs on no other
path, so the authentication failure is distinguishable from every other
error the endpoint produces. -/
theorem calibration_auth_distinct (secret : Option String) (req : OffsetRequest)
    (store : List CalibrationOffset) (newId : String) :
    (manageCalibrationOffsets secret req store newId =
        (⟨401, .errorMsg "Invalid password"⟩, store) ↔
      authRejected secret req.password = true) ∧
    ((manageCalibrationOffsets secret req store newId).1.status = 401 ↔
      authRejected secret req.password = true) := by
  cases h : authRejected secret req.password with
  | true => simp [manageCalibrationOffsets, h]
  | false =>
    simp only [manageCalibrationOffsets, h, Bool.false_eq_true, if_false]
    constructor
    · constructor
      · intro hEq
        have hst := congrArg (fun p => p.1.status) hEq
        exact absurd hst (dispatch_status_ne_401 req store newId)
      · intro hh; cases hh
    · constructor
      · intro hs; exact absurd hs (dispatch_status_ne_401 req store newId)
      · intro hh; cases hh

/-- The server-side secret in the update-bypass scenario. -/
def c10Secret : Option String := some "operator-pw"

/-- First create request of the scenario: channel ch1, interval [0, 10]. -/
def c10Create1 : OffsetRequest :=
  ⟨.create, "operator-pw", some ⟨none, "ch1", 1, 0, some 10, "cal A"⟩⟩

/-- Second create request of the scenario: channel ch1, interval [20, 30]. -/
def c10Create2 : OffsetRequest :=
  ⟨.create, "operator-pw", some ⟨none, "ch1", 2, 20, some 30, "cal B"⟩⟩

/-- The update request of the scenario: move the second offset's
`valid_from` to 5, so its interval becomes [5, 30], overlapping [0, 10]. -/
def c10Update : OffsetRequest :=
  ⟨.update, "operator-pw", some ⟨some "id2", "ch1", 2, 5, some 30, "cal B moved"⟩⟩

/-- Store after the two creates. -/
def c10StoreAfterCreates : List CalibrationOffset :=
  (manageCalibrationOffsets c10Secret c10Create2
    (manageCalibrationOffsets c10Secret c10Create1 [] "id1").2 "id2").2

/-- Response and store of the update step. -/
def c10UpdateResult : HttpResponse × List CalibrationOffset :=
  manageCalibrationOffsets c10Secret c10Update c10StoreAfterCreates "unused"

/-- C10. The update action bypasses the overlap guard: from the empty store,
two authorized creates on channel ch1 succeed and reach a store satisfying
the per-channel non-overlap invariant; a single authorized update of the
second offset's `valid_from` then succeeds (HTTP 200) — no overlap query is
run — and yields a store in which the two ch1 offsets' validity intervals
overlap, violating the invariant. -/
theorem update_bypasses_overlap_guard :
    (manageCalibrationOffsets c10Secret c10Create1 [] "id1").1.status = 200 ∧
    (manageCalibrationOffsets c10Secret c10Create2
      (manageCalibrationOffsets c10Secret c10Create1 [] "id1").2 "id2").1.status = 200 ∧
    c10StoreAfterCreates =
      [⟨"id1", "ch1", 1, 0, some 10, "cal A"⟩, ⟨"id2", "ch1", 2, 20, some 30, "cal B"⟩] ∧
    pairwiseNonOverlap c10StoreAfterCreates = true ∧
    c10UpdateResult.1.status = 200 ∧
    c10UpdateResult.2 =
      [⟨"id1", "ch1", 1, 0, some 10, "cal A"⟩, ⟨"id2", "ch1", 2, 5, some 30, "cal B moved"⟩] ∧
    pairwiseNonOverlap c10UpdateResult.2 = false := by
  refine ⟨rfl, rfl, by decide, by decide, rfl, by decide, by decide⟩
